import Mathlib

/-!
Shallow embedding of `src/index.ts` (Wave Rover MCP server): the rover
registry (`roverConnections`), the six MCP tool handlers, and the two
Express transport endpoints, together with proofs of the specified
properties.
-/

set_option autoImplicit false

namespace WaveRover

/-! ### JS number / string rendering

The handlers interpolate JS numbers into template literals and into
`JSON.stringify` output.  We model JS numbers as rationals and their
decimal rendering (`String(n)` / `JSON.stringify(n)`) by `ratToDecimal`.
-/

/-- The decimal digit character for `d` (expected `d < 10`). -/
def digitToChar (d : Nat) : Char := Char.ofNat (48 + d)

/-- Fuel-driven most-significant-first decimal digits of a natural number. -/
def natDigitsGo : Nat → Nat → List Char
  | 0, _ => []
  | fuel + 1, n =>
    if n < 10 then [digitToChar n]
    else natDigitsGo fuel (n / 10) ++ [digitToChar (n % 10)]

/-- Decimal digits of a natural number, most significant first. -/
def natDigits (n : Nat) : List Char := natDigitsGo (n + 1) n

/-- Decimal rendering of a natural number (model of JS `String(n)` for naturals). -/
def natDecimal (n : Nat) : String := String.mk (natDigits n)

/-- Fuel-driven fractional decimal digits of `r / den`. -/
def fracDigits : Nat → Nat → Nat → List Char
  | 0, _, _ => []
  | _ + 1, 0, _ => []
  | fuel + 1, r, den =>
    digitToChar (r * 10 / den) :: fracDigits fuel (r * 10 % den) den

/-- Decimal rendering of a rational number: the model of how JS renders the
number values appearing in this program (`String(x)` and `JSON.stringify(x)`). -/
def ratToDecimal (q : Rat) : String :=
  let sign := if q < 0 then "-" else ""
  let n := q.num.natAbs
  let den := q.den
  let ip := n / den
  let r := n % den
  let frac := fracDigits 64 r den
  sign ++ natDecimal ip ++ (if frac = [] then "" else "." ++ String.mk frac)

/-! ### JSON values and `JSON.stringify` -/

/-- JSON values as constructed by the tool handlers (numbers, strings and
flat objects are the only shapes the source builds). -/
inductive Json where
  | num (q : Rat)
  | str (s : String)
  | obj (fields : List (String × Json))
deriving Repr

/-- The escaping `JSON.stringify` applies inside a string literal. -/
def escapeJsonChar (c : Char) : String :=
  if c = Char.ofNat 34 then "\\\""
  else if c = Char.ofNat 92 then "\\\\"
  else if c = Char.ofNat 10 then "\\n"
  else if c = Char.ofNat 13 then "\\r"
  else if c = Char.ofNat 9 then "\\t"
  else if c.toNat < 32 then
    "\\u00" ++ String.mk [digitToChar (c.toNat / 16), digitToChar (c.toNat % 16)]
  else String.singleton c

/-- Escape a whole string for inclusion in JSON output. -/
def escapeJsonString (s : String) : String :=
  s.data.foldl (fun acc c => acc ++ escapeJsonChar c) ""

mutual

/-- Model of `JSON.stringify` on the values this program builds. -/
def Json.serialize : Json → String
  | .num q => ratToDecimal q
  | .str s => "\"" ++ escapeJsonString s ++ "\""
  | .obj fields => "\x7b" ++ serializeFields fields ++ "\x7d"

/-- Comma-separated `"key":value` rendering of an object's fields. -/
def serializeFields : List (String × Json) → String
  | [] => ""
  | [(k, v)] => "\"" ++ escapeJsonString k ++ "\":" ++ Json.serialize v
  | (k, v) :: f :: rest =>
    "\"" ++ escapeJsonString k ++ "\":" ++ Json.serialize v ++ ","
      ++ serializeFields (f :: rest)

end

/-! ### URL encoding (spec-shaped)

`encodeURIComponent`, written from the spec's words "URL-encoded JSON"
(percent-encoding).  The source never calls any such function; this
definition exists only to state the spec's claim about the outbound URL
and compare it with what the source builds.
-/

/-- Two-digit uppercase hexadecimal rendering of a byte. -/
def hexByte (b : Nat) : String :=
  let hexDigit := fun (d : Nat) => if d < 10 then digitToChar d else Char.ofNat (55 + d)
  String.mk [hexDigit (b / 16 % 16), hexDigit (b % 16)]

/-- The UTF-8 bytes of a character (as naturals below 256). -/
def utf8Bytes (c : Char) : List Nat :=
  let n := c.toNat
  if n < 128 then [n]
  else if n < 2048 then [192 + n / 64, 128 + n % 64]
  else if n < 65536 then [224 + n / 4096, 128 + n / 64 % 64, 128 + n % 64]
  else [240 + n / 262144, 128 + n / 4096 % 64, 128 + n / 64 % 64, 128 + n % 64]

/-- Characters `encodeURIComponent` leaves unescaped: ASCII alphanumerics
and `- _ . ! ~ * ( )` and the apostrophe (code 39). -/
def uriUnreserved (c : Char) : Bool :=
  (65 ≤ c.toNat && c.toNat ≤ 90) || (97 ≤ c.toNat && c.toNat ≤ 122)
    || (48 ≤ c.toNat && c.toNat ≤ 57)
    || c = '-' || c = '_' || c = '.' || c = '!' || c = '~' || c = '*'
    || c = Char.ofNat 39 || c = '(' || c = ')'

/-- Model of JS `encodeURIComponent` (percent-encoding of UTF-8 bytes). -/
def encodeURIComponent (s : String) : String :=
  s.data.foldl
    (fun acc c =>
      if uriUnreserved c then acc ++ String.singleton c
      else acc ++ String.join ((utf8Bytes c).map (fun b => "%" ++ hexByte b)))
    ""

/-! ### The rover registry

`const roverConnections = new Map<string, Rover>()` — modelled as an
insertion-ordered association list with JS `Map` semantics (`set`
overwrites an existing key in place, otherwise appends; `get` returns the
entry for the key; `size` is the number of entries).
-/

/-- `class Rover { id: string; ip: string }`. -/
structure Rover where
  id : String
  ip : String
deriving DecidableEq, Repr

/-- The `roverConnections` map: insertion-ordered entries of a JS `Map`. -/
abbrev Registry : Type := List (String × Rover)

/-- `Map.prototype.get`. -/
def Registry.get (m : Registry) (k : String) : Option Rover :=
  ((List.find? (fun p => p.1 = k) m)).map (fun p => p.2)

/-- `Map.prototype.set`: overwrite in place if the key exists, else append. -/
def Registry.set (m : Registry) (k : String) (v : Rover) : Registry :=
  if List.any m (fun p => p.1 = k) then
    List.map (fun p => if p.1 = k then (k, v) else p) m
  else m ++ [(k, v)]

/-- `Map.prototype.size`. -/
def Registry.size (m : Registry) : Nat := List.length m

/-- The keys of the registry, in insertion order. -/
def Registry.keys (m : Registry) : List String := List.map Prod.fst m

/-! ### Outbound HTTP and tool invocation outcomes -/

/-- A resolved axios response (`result.status`, `result.data` as text). -/
structure HttpResponse where
  status : Nat
  data : String
deriving DecidableEq, Repr

/-- Modelled from the spec: the behaviour of `axios.get(url)` for the device
endpoint, which is outside this repository.  The promise either rejects
with a (network-level) error or resolves with a response; per the spec,
"no response-body validation" happens and only transport failures reject. -/
def DeviceNet : Type := String → Except String HttpResponse

/-- The `{ content: [{ type: "text", text }] }` value a handler returns:
we keep the list of text blocks. -/
structure ToolResponse where
  content : List String
deriving DecidableEq, Repr

deriving instance DecidableEq for Except

/-- Observable outcome of one tool invocation: the URLs of the outbound
GET requests it issued, and its result (`.error` models a thrown
`Error`'s message). -/
structure Invocation where
  requests : List String
  result : Except String ToolResponse
deriving DecidableEq, Repr

/-! ### Tool handlers -/

/-- The identifier `Connect` assigns: `` `rover${roverConnections.size + 1}` ``. -/
def assignedId (reg : Registry) : String :=
  "rover" ++ natDecimal (reg.size + 1)

/-- The `Connect` tool handler. -/
def connectHandler (reg : Registry) (ip : String) : Registry × Invocation :=
  let roverId := assignedId reg
  let rover : Rover := ⟨roverId, ip⟩
  (reg.set roverId rover,
    ⟨[], .ok ⟨["Connected to: " ++ ip ++ " with ID: " ++ roverId]⟩⟩)

/-- The `Error` message thrown when an id has no registry entry. -/
def notFoundMsg (id : String) : String :=
  "Rover with ID " ++ id ++ " not found"

/-- The URL a device-addressing handler builds from an ip and a command:
`` `http://${rover.ip}/js?json=${command}` `` with `command` the
`JSON.stringify` output, interpolated as-is. -/
def deviceUrl (ip : String) (command : Json) : String :=
  "http://" ++ ip ++ "/js?json=" ++ command.serialize

/-- Shared shape of the five device-addressing handlers: resolve the id
(throwing if absent), issue one GET with the command, and on a resolved
response produce the handler's text (a function of the response). -/
def dispatch (net : DeviceNet) (reg : Registry) (id : String) (command : Json)
    (text : HttpResponse → String) : Registry × Invocation :=
  match reg.get id with
  | none => (reg, ⟨[], .error (notFoundMsg id)⟩)
  | some rover =>
    let url := deviceUrl rover.ip command
    match net url with
    | .error e => (reg, ⟨[url], .error e⟩)
    | .ok resp => (reg, ⟨[url], .ok ⟨[text resp]⟩⟩)

/-- The `Speed` tool handler: command `{ T: 1, L: leftWheelSpeed, R: rightWheelSpeed }`. -/
def speedHandler (net : DeviceNet) (reg : Registry) (id : String)
    (leftWheelSpeed rightWheelSpeed : Rat) : Registry × Invocation :=
  dispatch net reg id
    (.obj [("T", .num 1), ("L", .num leftWheelSpeed), ("R", .num rightWheelSpeed)])
    (fun _ => "Left wheel speed: " ++ ratToDecimal leftWheelSpeed
      ++ ", Right wheel speed: " ++ ratToDecimal rightWheelSpeed)

/-- The `PWM` tool handler: command `{ T: 11, L: L, R: R }`. -/
def pwmHandler (net : DeviceNet) (reg : Registry) (id : String)
    (L R : Rat) : Registry × Invocation :=
  dispatch net reg id
    (.obj [("T", .num 11), ("L", .num L), ("R", .num R)])
    (fun _ => "Left wheel speed: " ++ ratToDecimal L
      ++ ", Right wheel speed: " ++ ratToDecimal R)

/-- The `cmd_vel` tool handler: command `{ T: 13, X: L, Z: R }`. -/
def cmdVelHandler (net : DeviceNet) (reg : Registry) (id : String)
    (L R : Rat) : Registry × Invocation :=
  dispatch net reg id
    (.obj [("T", .num 13), ("X", .num L), ("Z", .num R)])
    (fun _ => "Velocity: " ++ ratToDecimal L ++ ", Rotation: " ++ ratToDecimal R)

/-- The `Screen` tool handler: command `{"T":3,"lineNum":lineNum,"Text":Text}`. -/
def screenHandler (net : DeviceNet) (reg : Registry) (id : String)
    (lineNum : Rat) (Text : String) : Registry × Invocation :=
  dispatch net reg id
    (.obj [("T", .num 3), ("lineNum", .num lineNum), ("Text", .str Text)])
    (fun _ => "Line Number: " ++ ratToDecimal lineNum ++ ", Text: " ++ Text)

/-- The `IMU` tool handler: command `{"T":126}`; the result text is
`` `result${result.data}` ``. -/
def imuHandler (net : DeviceNet) (reg : Registry) (id : String) :
    Registry × Invocation :=
  dispatch net reg id (.obj [("T", .num 126)])
    (fun resp => "result" ++ resp.data)

/-- Run a sequence of `Connect` calls, collecting the identifier each call
assigns (the id embedded in its confirmation text and stored in the map). -/
def runConnects : List String → Registry → Registry × List String
  | [], reg => (reg, [])
  | ip :: rest, reg =>
    let rid := assignedId reg
    let reg1 := (connectHandler reg ip).1
    let (regF, ids) := runConnects rest reg1
    (regF, rid :: ids)

/-! ### Transport endpoints (`/sse` and `/messages`) -/

/-- JS `a || b` on a string-or-undefined left operand: an absent value and
the empty string are falsy. -/
def jsOrString (v : Option String) (fallback : String) : String :=
  match v with
  | none => fallback
  | some s => if s = "" then fallback else s

/-- The client identifier both endpoints compute:
`req.query.clientId as string || req.headers["client-id"] as string || "defaultClientId"`. -/
def resolveClientId (query header : Option String) : String :=
  jsOrString query (jsOrString header "defaultClientId")

/-- Outcome of the `GET /sse` endpoint. -/
inductive SseOutcome where
  | badRequest (msg : String)
  | connected (clientId : String)
deriving DecidableEq, Repr

/-- The `GET /sse` handler: computes the client id, answers 400 if it is
falsy, else registers a transport under it. -/
def sseHandler (query header : Option String) : SseOutcome :=
  if resolveClientId query header = "" then
    .badRequest "clientId query parameter is required"
  else .connected (resolveClientId query header)

/-- Outcome of the `POST /messages` endpoint. -/
inductive MessagesOutcome where
  | badRequest (msg : String)
  | transportNotFound
  | handled (clientId : String)
deriving DecidableEq, Repr

/-- The `POST /messages` handler: computes the client id, answers 400 if it
is falsy, 404 if no transport is registered under it, else dispatches. -/
def messagesHandler (transports : List String) (query header : Option String) :
    MessagesOutcome :=
  if resolveClientId query header = "" then
    .badRequest "clientId query parameter is required"
  else if transports.contains (resolveClientId query header) then
    .handled (resolveClientId query header)
  else .transportNotFound

/-! ### Helper lemmas: decimal rendering is injective -/

/-- Value step when reading decimal digits most-significant first. -/
def digitStep (acc : Nat) (c : Char) : Nat := acc * 10 + (c.toNat - 48)

theorem digitToChar_toNat {n : Nat} (h : n < 10) : (digitToChar n).toNat = 48 + n := by
  interval_cases n <;> rfl

theorem natDigitsGo_foldl (fuel : Nat) :
    ∀ n acc, n < fuel →
      List.foldl digitStep acc (natDigitsGo fuel n)
        = acc * 10 ^ (natDigitsGo fuel n).length + n := by
  induction fuel with
  | zero => intro n acc h; omega
  | succ fuel ih =>
    intro n acc h
    by_cases h10 : n < 10
    · simp only [natDigitsGo, if_pos h10, List.foldl, List.length_cons,
        List.length_nil, digitStep, digitToChar_toNat h10, Nat.zero_add, pow_one]
      omega
    · have hdiv : n / 10 < n := Nat.div_lt_self (by omega) (by omega)
      have hfuel : n / 10 < fuel := by omega
      have hm10 : n % 10 < 10 := Nat.mod_lt n (by omega)
      simp only [natDigitsGo, if_neg h10, List.foldl_append, List.foldl,
        List.length_append, List.length_cons, List.length_nil, Nat.zero_add]
      rw [ih (n / 10) acc hfuel]
      simp only [digitStep, digitToChar_toNat hm10]
      have e : acc * 10 ^ ((natDigitsGo fuel (n / 10)).length + 1)
          = acc * 10 ^ (natDigitsGo fuel (n / 10)).length * 10 := by ring
      have hdm := Nat.div_add_mod n 10
      omega

theorem natDigits_val (n : Nat) : List.foldl digitStep 0 (natDigits n) = n := by
  have := natDigitsGo_foldl (n + 1) n 0 (Nat.lt_succ_self n)
  simpa [natDigits] using this

theorem natDecimal_injective : Function.Injective natDecimal := by
  intro m n h
  have hdata : natDigits m = natDigits n := congrArg String.data h
  have := natDigits_val m
  rw [hdata, natDigits_val n] at this
  exact this.symm

/-- The identifier `Connect` assigns to the `n`-th registration. -/
def roverName (n : Nat) : String := "rover" ++ natDecimal n

theorem roverName_injective : Function.Injective roverName := by
  intro m n h
  have hdata := congrArg String.data h
  simp only [roverName, String.data_append] at hdata
  exact natDecimal_injective (String.ext (List.append_cancel_left hdata))

/-! ### Helper lemmas: registry (JS `Map`) operations -/

@[simp] theorem Registry.keys_nil : Registry.keys ([] : Registry) = [] := rfl

@[simp] theorem Registry.keys_cons (q : String × Rover) (rest : Registry) :
    Registry.keys (q :: rest) = q.1 :: Registry.keys rest := rfl

@[simp] theorem Registry.keys_append (a b : Registry) :
    Registry.keys (a ++ b) = Registry.keys a ++ Registry.keys b :=
  List.map_append Prod.fst a b

theorem Registry.length_keys (m : Registry) : m.keys.length = m.size :=
  List.length_map m Prod.fst

theorem Registry.get_eq_none_iff (m : Registry) (k : String) :
    m.get k = none ↔ k ∉ m.keys := by
  unfold Registry.get Registry.keys
  rw [Option.map_eq_none', List.find?_eq_none]
  constructor
  · intro h hk
    obtain ⟨p, hp, hpk⟩ := List.mem_map.mp hk
    exact h p hp (by simp [hpk])
  · intro h p hp hpk
    exact h (List.mem_map.mpr ⟨p, hp, by simpa using hpk⟩)

theorem Registry.set_of_not_mem {m : Registry} {k : String} (v : Rover)
    (h : k ∉ m.keys) : m.set k v = m ++ [(k, v)] := by
  have hany : List.any m (fun p => p.1 = k) = false := by
    rw [Bool.eq_false_iff]
    intro hx
    obtain ⟨p, hp, hpk⟩ := List.any_eq_true.mp hx
    exact h (List.mem_map.mpr ⟨p, hp, by simpa using hpk⟩)
  simp [Registry.set, hany]

theorem find?_overwrite (m : Registry) (k : String) (v : Rover)
    (hk : k ∈ m.keys) :
    List.find? (fun p => p.1 = k)
      (List.map (fun p => if p.1 = k then (k, v) else p) m) = some (k, v) := by
  induction m with
  | nil => simp at hk
  | cons q rest ih =>
    by_cases hq : q.1 = k
    · rw [List.map_cons, if_pos hq, List.find?_cons_of_pos _ (by simp)]
    · have hk2 : k ∈ Registry.keys rest := by
        rcases List.mem_cons.mp (by simpa using hk) with h1 | h2
        · exact absurd h1.symm hq
        · exact h2
      rw [List.map_cons, if_neg hq, List.find?_cons_of_neg _ (by simp [hq])]
      exact ih hk2

theorem find?_append_fresh (m : Registry) (k : String) (v : Rover)
    (hk : k ∉ m.keys) :
    List.find? (fun p => p.1 = k) (m ++ [(k, v)]) = some (k, v) := by
  induction m with
  | nil => simp
  | cons q rest ih =>
    have hq : q.1 ≠ k := fun h => hk (by simp [h])
    rw [List.cons_append, List.find?_cons_of_neg _ (by simp [hq])]
    exact ih (fun h => hk (by simp [h]))

theorem Registry.get_set_self (m : Registry) (k : String) (v : Rover) :
    (m.set k v).get k = some v := by
  unfold Registry.set
  by_cases h : List.any m (fun p => p.1 = k) = true
  · rw [if_pos h]
    obtain ⟨p, hp, hpk⟩ := List.any_eq_true.mp h
    have hk : k ∈ m.keys := List.mem_map.mpr ⟨p, hp, by simpa using hpk⟩
    unfold Registry.get
    rw [find?_overwrite m k v hk]
    rfl
  · rw [if_neg h]
    have hk : k ∉ m.keys := by
      intro hmem
      obtain ⟨p, hp, hpk⟩ := List.mem_map.mp hmem
      exact h (List.any_eq_true.mpr ⟨p, hp, by simp [hpk]⟩)
    unfold Registry.get
    rw [find?_append_fresh m k v hk]
    rfl

/-! ### Helper lemmas: sequences of `Connect` calls -/

/-- The identifiers `rover1 … roverK`, in order. -/
def roverNames (k : Nat) : List String :=
  (List.range k).map (fun i => roverName (i + 1))

theorem roverNames_length (k : Nat) : (roverNames k).length = k := by
  simp [roverNames]

theorem roverNames_succ (k : Nat) :
    roverNames (k + 1) = roverNames k ++ [roverName (k + 1)] := by
  simp [roverNames, List.range_succ]

theorem roverName_not_mem (k : Nat) : roverName (k + 1) ∉ roverNames k := by
  intro h
  obtain ⟨i, hi, hname⟩ := List.mem_map.mp h
  have : i + 1 = k + 1 := roverName_injective hname
  have : i < k := List.mem_range.mp hi
  omega

theorem assignedId_eq {reg : Registry} {k : Nat} (h : reg.keys = roverNames k) :
    assignedId reg = roverName (k + 1) := by
  have hsize : reg.size = k := by
    rw [← Registry.length_keys, h, roverNames_length]
  unfold assignedId roverName
  rw [hsize]

theorem connect_keys {reg : Registry} {k : Nat} (ip : String)
    (h : reg.keys = roverNames k) :
    ((connectHandler reg ip).1).keys = roverNames (k + 1) := by
  have hid := assignedId_eq h
  have hfresh : assignedId reg ∉ reg.keys := by
    rw [hid, h]; exact roverName_not_mem k
  show (reg.set (assignedId reg) ⟨assignedId reg, ip⟩).keys = roverNames (k + 1)
  rw [Registry.set_of_not_mem _ hfresh, Registry.keys_append, h, hid,
    roverNames_succ]
  rfl

theorem runConnects_spec :
    ∀ (ips : List String) (reg : Registry) (k : Nat), reg.keys = roverNames k →
      ((runConnects ips reg).1).keys = roverNames (k + ips.length)
        ∧ (runConnects ips reg).2
            = (List.range ips.length).map (fun i => roverName (k + i + 1)) := by
  intro ips
  induction ips with
  | nil => intro reg k h; simpa [runConnects] using h
  | cons ip rest ih =>
    intro reg k h
    have hkeys1 : ((connectHandler reg ip).1).keys = roverNames (k + 1) :=
      connect_keys ip h
    obtain ⟨ihkeys, ihids⟩ := ih (connectHandler reg ip).1 (k + 1) hkeys1
    constructor
    · show ((runConnects rest (connectHandler reg ip).1).1).keys = _
      rw [ihkeys]
      exact congrArg roverNames (by simp; omega)
    · show assignedId reg :: (runConnects rest (connectHandler reg ip).1).2 = _
      rw [ihids, assignedId_eq h, List.length_cons, List.range_succ_eq_map,
        List.map_cons, List.map_map]
      simp only [Nat.add_zero]
      congr 1
      refine List.map_congr_left ?_
      intro i _
      show roverName (k + 1 + i + 1) = roverName (k + (i + 1) + 1)
      exact congrArg roverName (by omega)

theorem runConnects_ids (ips : List String) :
    (runConnects ips []).2
      = (List.range ips.length).map (fun i => roverName (i + 1)) := by
  have h := (runConnects_spec ips [] 0 rfl).2
  rw [h]
  exact List.map_congr_left (fun i _ => congrArg roverName (by omega))

theorem runConnects_keys (ips : List String) :
    ((runConnects ips []).1).keys = (runConnects ips []).2 := by
  rw [runConnects_ids, (runConnects_spec ips [] 0 rfl).1]
  simp [roverNames]

/-! ### Helper lemmas: the shared dispatch shape -/

theorem dispatch_eq (net : DeviceNet) (reg : Registry) (id : String)
    (c : Json) (t : HttpResponse → String) :
    dispatch net reg id c t =
      match reg.get id with
      | none => (reg, ⟨[], .error (notFoundMsg id)⟩)
      | some rover =>
        match net (deviceUrl rover.ip c) with
        | .error e => (reg, ⟨[deviceUrl rover.ip c], .error e⟩)
        | .ok resp => (reg, ⟨[deviceUrl rover.ip c], .ok ⟨[t resp]⟩⟩) := rfl

theorem dispatch_fst (net : DeviceNet) (reg : Registry) (id : String)
    (c : Json) (t : HttpResponse → String) : (dispatch net reg id c t).1 = reg := by
  cases hg : reg.get id with
  | none => simp [dispatch_eq, hg]
  | some rover => cases hn : net (deviceUrl rover.ip c) <;> simp [dispatch_eq, hg, hn]

theorem dispatch_of_none {reg : Registry} {id : String} (net : DeviceNet)
    (c : Json) (t : HttpResponse → String) (h : reg.get id = none) :
    (dispatch net reg id c t).2 = ⟨[], .error (notFoundMsg id)⟩ := by
  simp [dispatch_eq, h]

theorem dispatch_requests {reg : Registry} {id : String} {rover : Rover}
    (net : DeviceNet) (c : Json) (t : HttpResponse → String)
    (h : reg.get id = some rover) :
    (dispatch net reg id c t).2.requests = [deviceUrl rover.ip c] := by
  cases hn : net (deviceUrl rover.ip c) <;> simp [dispatch_eq, h, hn]

theorem dispatch_ok {reg : Registry} {id : String} {rover : Rover}
    {net : DeviceNet} {resp : HttpResponse} (c : Json) (t : HttpResponse → String)
    (h : reg.get id = some rover) (hnet : net (deviceUrl rover.ip c) = .ok resp) :
    (dispatch net reg id c t).2.result = .ok ⟨[t resp]⟩ := by
  simp [dispatch_eq, h, hnet]

/-! ### Helper lemmas: the client id of the transport endpoints -/

theorem jsOrString_ne_empty (v : Option String) {fb : String} (hfb : fb ≠ "") :
    jsOrString v fb ≠ "" := by
  cases v with
  | none => exact hfb
  | some s =>
    show (if s = "" then fb else s) ≠ ""
    by_cases hs : s = ""
    · rw [if_pos hs]; exact hfb
    · rw [if_neg hs]; exact hs

theorem resolveClientId_ne_empty (q h : Option String) :
    resolveClientId q h ≠ "" :=
  jsOrString_ne_empty q (jsOrString_ne_empty h (by decide))

/-! ### Concrete fixtures used by witnesses and counterexamples -/

/-- The registry after one `Connect` with address `10.0.0.5`. -/
def testRegistry : Registry := (connectHandler [] "10.0.0.5").1

/-- A device that always resolves with status 200 and the given body. -/
def okNet (body : String) : DeviceNet := fun _ => .ok ⟨200, body⟩

/-- A device that always resolves with the given status and an empty body. -/
def statusNet (status : Nat) : DeviceNet := fun _ => .ok ⟨status, ""⟩

/-- The body the spec's IMU example stub device returns. -/
def imuBody : String := "\x7b\"roll\":1\x7d"

/-! ### The claims -/

/-- Claim C1, counterexample: the Speed handler's outbound URL carries the
raw `JSON.stringify` text of the command, not its percent-encoding, so with
address `10.0.0.5` and speeds `50 / -50` the issued request differs from
`http://10.0.0.5/js?json=` followed by `encodeURIComponent` of the JSON. -/
theorem C1_counterexample :
    ¬ ((speedHandler (okNet "") testRegistry "rover1" 50 (-50)).2.requests
        = ["http://10.0.0.5/js?json="
            ++ encodeURIComponent ((Json.obj [("T", Json.num 1), ("L", Json.num 50),
                ("R", Json.num (-50))]).serialize)]) := by
  intro h
  have hL : (speedHandler (okNet "") testRegistry "rover1" 50 (-50)).2.requests
      = ["http://10.0.0.5/js?json=\x7b\"T\":1,\"L\":50,\"R\":-50\x7d"] := rfl
  have hR : "http://10.0.0.5/js?json="
      ++ encodeURIComponent ((Json.obj [("T", Json.num 1), ("L", Json.num 50),
          ("R", Json.num (-50))]).serialize)
      = "http://10.0.0.5/js?json=%7B%22T%22%3A1%2C%22L%22%3A50%2C%22R%22%3A-50%7D" := rfl
  rw [hL, hR] at h
  injection h with h1 _
  exact absurd h1 (by decide)

/-- Claim C1 (amended): for every device-addressing operation invoked with a
registered identifier, the single outbound request is a GET to
`http://{address}/js?json={q}` where `q` is the raw JSON serialization of
the command object interpolated as-is (not percent-encoded). -/
theorem C1_theorem :
    ∀ (net : DeviceNet) (reg : Registry) (id : String) (rover : Rover),
    reg.get id = some rover →
      (∀ l r : Rat, (speedHandler net reg id l r).2.requests
          = ["http://" ++ rover.ip ++ "/js?json="
              ++ (Json.obj [("T", Json.num 1), ("L", Json.num l),
                    ("R", Json.num r)]).serialize])
      ∧ (∀ L R : Rat, (pwmHandler net reg id L R).2.requests
          = ["http://" ++ rover.ip ++ "/js?json="
              ++ (Json.obj [("T", Json.num 11), ("L", Json.num L),
                    ("R", Json.num R)]).serialize])
      ∧ (∀ L R : Rat, (cmdVelHandler net reg id L R).2.requests
          = ["http://" ++ rover.ip ++ "/js?json="
              ++ (Json.obj [("T", Json.num 13), ("X", Json.num L),
                    ("Z", Json.num R)]).serialize])
      ∧ (∀ (n : Rat) (s : String), (screenHandler net reg id n s).2.requests
          = ["http://" ++ rover.ip ++ "/js?json="
              ++ (Json.obj [("T", Json.num 3), ("lineNum", Json.num n),
                    ("Text", Json.str s)]).serialize])
      ∧ (imuHandler net reg id).2.requests
          = ["http://" ++ rover.ip ++ "/js?json="
              ++ (Json.obj [("T", Json.num 126)]).serialize] := by
  intro net reg id rover h
  exact ⟨fun l r => dispatch_requests net _ _ h,
    fun L R => dispatch_requests net _ _ h,
    fun L R => dispatch_requests net _ _ h,
    fun n s => dispatch_requests net _ _ h,
    dispatch_requests net _ _ h⟩

/-- Claim C1, witness: the amended claim evaluated at a concrete registered
rover and concrete speeds. -/
theorem C1_witness :
    testRegistry.get "rover1" = some ⟨"rover1", "10.0.0.5"⟩
    ∧ (speedHandler (okNet "") testRegistry "rover1" 50 (-50)).2.requests
        = ["http://10.0.0.5/js?json=\x7b\"T\":1,\"L\":50,\"R\":-50\x7d"] :=
  ⟨rfl, ((C1_theorem (okNet "") testRegistry "rover1" ⟨"rover1", "10.0.0.5"⟩
      rfl).1 50 (-50)).trans rfl⟩

/-- Claim C2, counterexample: with a registered rover whose device returns
the body `{"roll":1}`, the IMU result text is not that body verbatim (the
handler renders `` `result${result.data}` ``, prepending `result`). -/
theorem C2_counterexample :
    ¬ ((imuHandler (okNet imuBody) testRegistry "rover1").2.result
        = Except.ok ⟨[imuBody]⟩) := by
  intro h
  have hL : (imuHandler (okNet imuBody) testRegistry "rover1").2.result
      = Except.ok ⟨["result" ++ imuBody]⟩ := rfl
  rw [hL] at h
  injection h with h1
  injection h1 with h2
  exact absurd h2 (by decide)

/-- Claim C2 (amended): for every registered identifier, invoking IMU
returns as its result text the literal `result` immediately followed by the
response body text the device endpoint returned, the body itself verbatim. -/
theorem C2_theorem :
    ∀ (net : DeviceNet) (reg : Registry) (id : String) (rover : Rover)
      (resp : HttpResponse),
    reg.get id = some rover →
    net ("http://" ++ rover.ip ++ "/js?json="
        ++ (Json.obj [("T", Json.num 126)]).serialize) = .ok resp →
    (imuHandler net reg id).2.result = .ok ⟨["result" ++ resp.data]⟩ := by
  intro net reg id rover resp h hnet
  exact dispatch_ok _ _ h hnet

/-- Claim C2, witness: the amended claim evaluated at a concrete registered
rover whose device returns the spec's example body. -/
theorem C2_witness :
    testRegistry.get "rover1" = some ⟨"rover1", "10.0.0.5"⟩
    ∧ okNet imuBody ("http://10.0.0.5/js?json=\x7b\"T\":126\x7d")
        = .ok ⟨200, imuBody⟩
    ∧ (imuHandler (okNet imuBody) testRegistry "rover1").2.result
        = .ok ⟨["result" ++ imuBody]⟩ :=
  ⟨rfl, rfl, C2_theorem (okNet imuBody) testRegistry "rover1"
    ⟨"rover1", "10.0.0.5"⟩ ⟨200, imuBody⟩ rfl rfl⟩

/-- Claim C3 (confirmed): starting from an empty registry, any sequence of
N `Connect` calls assigns exactly the identifiers `rover1 … roverN`, in
call order and pairwise distinct, and after the first k calls the registry
holds exactly `min k N` entries (so each call grows it by exactly one). -/
theorem C3_theorem : ∀ ips : List String,
    (runConnects ips []).2
        = (List.range ips.length).map (fun i => roverName (i + 1))
    ∧ ((runConnects ips []).2).Nodup
    ∧ ∀ k : Nat, ((runConnects (ips.take k) []).1).size = min k ips.length := by
  intro ips
  refine ⟨runConnects_ids ips, ?_, ?_⟩
  · rw [runConnects_ids]
    refine (List.nodup_range _).map (fun a b hab => ?_)
    have := roverName_injective hab
    omega
  · intro k
    have h := (runConnects_spec (ips.take k) [] 0 rfl).1
    rw [← Registry.length_keys, h, roverNames_length, Nat.zero_add]
    have := List.length_take k ips
    omega

/-- Claim C4 (confirmed): every non-Connect operation invoked with an
identifier that has no registry entry fails with the not-found error
carrying that identifier and issues zero outbound requests. -/
theorem C4_theorem : ∀ (net : DeviceNet) (reg : Registry) (id : String),
    reg.get id = none →
      (∀ l r : Rat, (speedHandler net reg id l r).2
          = ⟨[], .error (notFoundMsg id)⟩)
      ∧ (∀ L R : Rat, (pwmHandler net reg id L R).2
          = ⟨[], .error (notFoundMsg id)⟩)
      ∧ (∀ L R : Rat, (cmdVelHandler net reg id L R).2
          = ⟨[], .error (notFoundMsg id)⟩)
      ∧ (∀ (n : Rat) (s : String), (screenHandler net reg id n s).2
          = ⟨[], .error (notFoundMsg id)⟩)
      ∧ (imuHandler net reg id).2 = ⟨[], .error (notFoundMsg id)⟩ := by
  intro net reg id h
  exact ⟨fun l r => dispatch_of_none net _ _ h,
    fun L R => dispatch_of_none net _ _ h,
    fun L R => dispatch_of_none net _ _ h,
    fun n s => dispatch_of_none net _ _ h,
    dispatch_of_none net _ _ h⟩

/-- Claim C4, witness: the IMU handler on an empty registry with an unknown
identifier. -/
theorem C4_witness :
    Registry.get [] "rover1" = none
    ∧ (imuHandler (okNet "") [] "rover1").2
        = ⟨[], .error (notFoundMsg "rover1")⟩ :=
  ⟨rfl, (C4_theorem (okNet "") [] "rover1" rfl).2.2.2.2⟩

/-- Claim C5 (confirmed): resolving an identifier never returned by any
`Connect` call (from an empty registry) yields no entry, and resolving the
identifier a `Connect` call just assigned returns exactly the rover storing
the address supplied to that call. -/
theorem C5_theorem :
    (∀ (ips : List String) (id : String),
        id ∉ (runConnects ips []).2 → ((runConnects ips []).1).get id = none)
    ∧ ∀ (reg : Registry) (ip : String),
        ((connectHandler reg ip).1).get (assignedId reg)
          = some ⟨assignedId reg, ip⟩ := by
  constructor
  · intro ips id hid
    rw [Registry.get_eq_none_iff, runConnects_keys]
    exact hid
  · intro reg ip
    exact Registry.get_set_self reg (assignedId reg) ⟨assignedId reg, ip⟩

/-- Claim C5, witness: after connecting one rover, a never-assigned
identifier resolves to nothing, and the just-assigned identifier resolves
to the supplied address. -/
theorem C5_witness :
    "ghost" ∉ (runConnects ["10.0.0.5"] []).2
    ∧ ((runConnects ["10.0.0.5"] []).1).get "ghost" = none
    ∧ ((connectHandler [] "10.0.0.5").1).get (assignedId [])
        = some ⟨assignedId [], "10.0.0.5"⟩ := by
  have hnot : "ghost" ∉ (runConnects ["10.0.0.5"] []).2 := by decide
  exact ⟨hnot, C5_theorem.1 ["10.0.0.5"] "ghost" hnot,
    C5_theorem.2 [] "10.0.0.5"⟩

/-- Claim C6 (confirmed): for every registered identifier, Speed issues
exactly one outbound GET whose JSON command object is
`{T:1, L:leftWheelSpeed, R:rightWheelSpeed}` with the numbers passed
through unmodified. -/
theorem C6_theorem :
    ∀ (net : DeviceNet) (reg : Registry) (id : String) (rover : Rover)
      (l r : Rat),
    reg.get id = some rover →
      (speedHandler net reg id l r).2.requests
        = ["http://" ++ rover.ip ++ "/js?json="
            ++ (Json.obj [("T", Json.num 1), ("L", Json.num l),
                  ("R", Json.num r)]).serialize] := by
  intro net reg id rover l r h
  exact dispatch_requests net _ _ h

/-- Claim C6, witness: address `10.0.0.5`, speeds `50 / -50` — the single
outbound GET carries the serialized object `{"T":1,"L":50,"R":-50}`. -/
theorem C6_witness :
    testRegistry.get "rover1" = some ⟨"rover1", "10.0.0.5"⟩
    ∧ (speedHandler (okNet "") testRegistry "rover1" 50 (-50)).2.requests
        = ["http://10.0.0.5/js?json=\x7b\"T\":1,\"L\":50,\"R\":-50\x7d"] :=
  ⟨rfl, (C6_theorem (okNet "") testRegistry "rover1" ⟨"rover1", "10.0.0.5"⟩
    50 (-50) rfl).trans rfl⟩

/-- Claim C7 (confirmed): for every registered identifier, `cmd_vel` with
arguments `L` and `R` sends the command object `{T:13, X:L, Z:R}` — the
argument named `L` goes to field `X` and the argument named `R` to field
`Z`. -/
theorem C7_theorem :
    ∀ (net : DeviceNet) (reg : Registry) (id : String) (rover : Rover)
      (L R : Rat),
    reg.get id = some rover →
      (cmdVelHandler net reg id L R).2.requests
        = ["http://" ++ rover.ip ++ "/js?json="
            ++ (Json.obj [("T", Json.num 13), ("X", Json.num L),
                  ("Z", Json.num R)]).serialize] := by
  intro net reg id rover L R h
  exact dispatch_requests net _ _ h

/-- Claim C7, witness: `L = 0.5`, `R = -0.2` yields the serialized object
`{"T":13,"X":0.5,"Z":-0.2}` on the wire. -/
theorem C7_witness :
    testRegistry.get "rover1" = some ⟨"rover1", "10.0.0.5"⟩
    ∧ (cmdVelHandler (okNet "") testRegistry "rover1" (mkRat 1 2)
        (mkRat (-1) 5)).2.requests
        = ["http://10.0.0.5/js?json=\x7b\"T\":13,\"X\":0.5,\"Z\":-0.2\x7d"] :=
  ⟨rfl, (C7_theorem (okNet "") testRegistry "rover1" ⟨"rover1", "10.0.0.5"⟩
    (mkRat 1 2) (mkRat (-1) 5) rfl).trans rfl⟩

/-- Claim C8 (confirmed): every invocation of Speed, PWM, cmd_vel, Screen
or IMU — whatever the registry contents and whatever the device does —
returns the registry exactly unchanged; only `Connect` writes it. -/
theorem C8_theorem :
    ∀ (net : DeviceNet) (reg : Registry) (id : String) (l r n : Rat)
      (s : String),
    (speedHandler net reg id l r).1 = reg
    ∧ (pwmHandler net reg id l r).1 = reg
    ∧ (cmdVelHandler net reg id l r).1 = reg
    ∧ (screenHandler net reg id n s).1 = reg
    ∧ (imuHandler net reg id).1 = reg := by
  intro net reg id l r n s
  exact ⟨dispatch_fst net reg id _ _, dispatch_fst net reg id _ _,
    dispatch_fst net reg id _ _, dispatch_fst net reg id _ _,
    dispatch_fst net reg id _ _⟩

/-- Claim C9 (confirmed): when the outbound device call resolves with any
response — in particular a non-2xx status — each device-addressing handler
still returns its normal success-shaped confirmation; no status check is
performed. -/
theorem C9_theorem :
    ∀ (net : DeviceNet) (reg : Registry) (id : String) (rover : Rover)
      (resp : HttpResponse),
    reg.get id = some rover →
    ¬(200 ≤ resp.status ∧ resp.status < 300) →
      (∀ l r : Rat,
        net ("http://" ++ rover.ip ++ "/js?json="
            ++ (Json.obj [("T", Json.num 1), ("L", Json.num l),
                  ("R", Json.num r)]).serialize) = .ok resp →
        (speedHandler net reg id l r).2.result
          = .ok ⟨["Left wheel speed: " ++ ratToDecimal l
              ++ ", Right wheel speed: " ++ ratToDecimal r]⟩)
      ∧ (∀ L R : Rat,
        net ("http://" ++ rover.ip ++ "/js?json="
            ++ (Json.obj [("T", Json.num 11), ("L", Json.num L),
                  ("R", Json.num R)]).serialize) = .ok resp →
        (pwmHandler net reg id L R).2.result
          = .ok ⟨["Left wheel speed: " ++ ratToDecimal L
              ++ ", Right wheel speed: " ++ ratToDecimal R]⟩)
      ∧ (∀ L R : Rat,
        net ("http://" ++ rover.ip ++ "/js?json="
            ++ (Json.obj [("T", Json.num 13), ("X", Json.num L),
                  ("Z", Json.num R)]).serialize) = .ok resp →
        (cmdVelHandler net reg id L R).2.result
          = .ok ⟨["Velocity: " ++ ratToDecimal L
              ++ ", Rotation: " ++ ratToDecimal R]⟩)
      ∧ (∀ (n : Rat) (s : String),
        net ("http://" ++ rover.ip ++ "/js?json="
            ++ (Json.obj [("T", Json.num 3), ("lineNum", Json.num n),
                  ("Text", Json.str s)]).serialize) = .ok resp →
        (screenHandler net reg id n s).2.result
          = .ok ⟨["Line Number: " ++ ratToDecimal n ++ ", Text: " ++ s]⟩)
      ∧ (net ("http://" ++ rover.ip ++ "/js?json="
            ++ (Json.obj [("T", Json.num 126)]).serialize) = .ok resp →
        (imuHandler net reg id).2.result = .ok ⟨["result" ++ resp.data]⟩) := by
  intro net reg id rover resp h _
  exact ⟨fun l r hnet => dispatch_ok _ _ h hnet,
    fun L R hnet => dispatch_ok _ _ h hnet,
    fun L R hnet => dispatch_ok _ _ h hnet,
    fun n s hnet => dispatch_ok _ _ h hnet,
    fun hnet => dispatch_ok _ _ h hnet⟩

/-- Claim C9, witness: a device answering HTTP 404 still yields the Speed
handler's normal confirmation text. -/
theorem C9_witness :
    testRegistry.get "rover1" = some ⟨"rover1", "10.0.0.5"⟩
    ∧ ¬(200 ≤ 404 ∧ 404 < 300)
    ∧ (speedHandler (statusNet 404) testRegistry "rover1" 1 2).2.result
        = .ok ⟨["Left wheel speed: 1, Right wheel speed: 2"]⟩ :=
  ⟨rfl, by omega,
    ((C9_theorem (statusNet 404) testRegistry "rover1" ⟨"rover1", "10.0.0.5"⟩
      ⟨404, ""⟩ rfl (by decide)).1 1 2 rfl).trans rfl⟩

/-- Claim C10 (confirmed): the 400 "clientId query parameter is required"
branch of both transport endpoints is unreachable — the computed client id
is never empty, defaulting to `defaultClientId` when neither the query
parameter nor the header carries a value. -/
theorem C10_theorem :
    (∀ (q h : Option String) (msg : String), sseHandler q h ≠ .badRequest msg)
    ∧ (∀ (ts : List String) (q h : Option String) (msg : String),
        messagesHandler ts q h ≠ .badRequest msg)
    ∧ resolveClientId none none = "defaultClientId" := by
  refine ⟨?_, ?_, rfl⟩
  · intro q h msg
    unfold sseHandler
    rw [if_neg (resolveClientId_ne_empty q h)]
    intro hc
    exact SseOutcome.noConfusion hc
  · intro ts q h msg
    unfold messagesHandler
    rw [if_neg (resolveClientId_ne_empty q h)]
    by_cases hm : ts.contains (resolveClientId q h)
    · rw [if_pos hm]
      intro hc
      exact MessagesOutcome.noConfusion hc
    · rw [if_neg hm]
      intro hc
      exact MessagesOutcome.noConfusion hc

end WaveRover
